import Mathlib

/-!
Shallow embedding of the rusty-jvm sources (src/vm.rs, src/interpret.rs,
src/env.rs, src/loader.rs) and proofs about the frozen claims.

Modelling conventions:
* Machine integers are `Nat` / `Int`; `i32` arithmetic wraps through
  `i32wrap` (two's complement, Rust release semantics).
* Byte streams are `List Nat` (each element a byte value, big-endian
  multi-byte reads as in the source's `byteorder::BigEndian`).
* Rust `panic!` sites are modelled as explicit error values, so faulting
  functions return `Except`.
* `f32` / `f64` payloads are carried as raw bit patterns (`Nat`); no claim
  inspects them.
-/

namespace RustyJvm

/-- Decidable equality for `Except` results, used to evaluate the embedded
functions on concrete inputs. -/
instance {ε α : Type} [DecidableEq ε] [DecidableEq α] : DecidableEq (Except ε α) := fun x y =>
  match x, y with
  | .ok a, .ok b =>
    if h : a = b then isTrue (by rw [h])
    else isFalse (fun hc => by injection hc; contradiction)
  | .error a, .error b =>
    if h : a = b then isTrue (by rw [h])
    else isFalse (fun hc => by injection hc; contradiction)
  | .ok _, .error _ => isFalse (fun hc => by cases hc)
  | .error _, .ok _ => isFalse (fun hc => by cases hc)

/-- Two's complement wrap-around of an integer into the `i32` range,
modelling Rust release-mode `i32` overflow semantics. -/
def i32wrap (x : Int) : Int := (x + 2 ^ 31) % 2 ^ 32 - 2 ^ 31

theorem i32wrap_eq_of_range (x : Int) (h1 : -2 ^ 31 ≤ x) (h2 : x < 2 ^ 31) :
    i32wrap x = x := by
  unfold i32wrap
  have h3 : (0 : Int) ≤ x + 2 ^ 31 := by omega
  have h4 : x + 2 ^ 31 < 2 ^ 32 := by omega
  rw [Int.emod_eq_of_lt h3 h4]
  omega

/-- src/vm.rs `VMValue`; Float/Double carry raw bit patterns. -/
inductive VMValue where
  | Int (v : Int)
  | Long (v : Int)
  | Byte (v : Nat)
  | Float (bits : Nat)
  | Double (bits : Nat)
  | Null
  deriving DecidableEq, Repr

/-- src/interpret.rs `Opcode`. -/
inductive Opcode where
  | AConstNull
  | IConst (v : Int)
  | IAdd
  | IAnd
  | I2B
  | I2C
  | I2D
  | I2F
  | I2L
  | I2S
  | IMul
  deriving DecidableEq, Repr

/-- src/interpret.rs `InterpreterError`. -/
inductive InterpreterError where
  | UnimplementedOpcode (b : Nat)
  deriving DecidableEq, Repr

/-- Faults during execution: the returned `InterpreterError` of
`VMEnv::execute`, plus the `panic!` sites of src/vm.rs and src/env.rs
(stack-pointer violations, `VMValue::int` type mismatch, and `Vec`
index panics). -/
inductive ExecFault where
  | interp (e : InterpreterError)
  | stackUnderflow
  | ptrViolation
  | indexOutOfBounds
  | operandTypeMismatch
  deriving DecidableEq, Repr

/-- src/vm.rs `VM`: growable backing storage plus explicit top-of-stack
pointer and a size counter tracking the storage length. -/
structure VM where
  interop_stack : List VMValue
  interop_stack_ptr : Nat
  interop_stack_size : Nat
  deriving DecidableEq, Repr

/-- src/vm.rs `VM::new` (the capacity only pre-allocates; storage starts
empty). -/
def VM.new (_initial_iterop_capacity : Nat) : VM :=
  { interop_stack_ptr := 0, interop_stack_size := 0, interop_stack := [] }

/-- src/vm.rs `VM::push`.  The final `else` is the source's
`panic!("interop stack ptr violation ...")`; the in-place store
`interop_stack[ptr] = val` would panic if the pointer were outside the
vector, modelled by `indexOutOfBounds`. -/
def VM.push (vm : VM) (val : VMValue) : Except ExecFault VM :=
  if vm.interop_stack_ptr = vm.interop_stack_size then
    .ok { interop_stack := vm.interop_stack ++ [val],
          interop_stack_ptr := vm.interop_stack_ptr + 1,
          interop_stack_size := vm.interop_stack_size + 1 }
  else if vm.interop_stack_ptr < vm.interop_stack_size then
    if vm.interop_stack_ptr < vm.interop_stack.length then
      .ok { vm with interop_stack := vm.interop_stack.set vm.interop_stack_ptr val,
                    interop_stack_ptr := vm.interop_stack_ptr + 1 }
    else .error .indexOutOfBounds
  else .error .ptrViolation

/-- src/vm.rs `VM::pop`.  Popping with the pointer at 0 is the source's
`panic!("interop stack ptr violation: pop at ...")`, i.e. the spec's
StackUnderflow fault. -/
def VM.pop (vm : VM) : Except ExecFault (VMValue × VM) :=
  if vm.interop_stack_ptr = 0 then .error .stackUnderflow
  else
    match vm.interop_stack[vm.interop_stack_ptr - 1]? with
    | some v => .ok (v, { vm with interop_stack_ptr := vm.interop_stack_ptr - 1 })
    | none => .error .indexOutOfBounds

/-- src/vm.rs `VMValue::int`; the wildcard arm is a `panic!`
("Expected int"), i.e. an operand type mismatch. -/
def VMValue.int : VMValue → Except ExecFault ℤ
  | .Int v => .ok v
  | _ => .error .operandTypeMismatch

/-- Observation of the value currently on top of the operand stack
(the slot just below the top-of-stack pointer, the value `pop` would
return). -/
def VM.top (vm : VM) : Option VMValue :=
  if vm.interop_stack_ptr = 0 then none
  else vm.interop_stack[vm.interop_stack_ptr - 1]?

/-- The stack invariant maintained by src/vm.rs: the top-of-stack pointer
never exceeds the size counter, and the size counter equals the storage
length. -/
def StackOk (vm : VM) : Prop :=
  vm.interop_stack_ptr ≤ vm.interop_stack_size ∧
  vm.interop_stack_size = vm.interop_stack.length

instance (vm : VM) : Decidable (StackOk vm) := by
  unfold StackOk; infer_instance

/-- src/interpret.rs `Interpreter::decode`: pure byte → opcode mapping;
the wildcard arm yields `UnimplementedOpcode` carrying the byte. -/
def Interpreter.decode (byte_code : Nat) : Except InterpreterError Opcode :=
  if byte_code = 0x01 then .ok .AConstNull
  else if byte_code = 0x02 then .ok (.IConst (-1))
  else if byte_code = 0x03 then .ok (.IConst 0)
  else if byte_code = 0x04 then .ok (.IConst 1)
  else if byte_code = 0x05 then .ok (.IConst 2)
  else if byte_code = 0x06 then .ok (.IConst 3)
  else if byte_code = 0x07 then .ok (.IConst 4)
  else if byte_code = 0x08 then .ok (.IConst 5)
  else if byte_code = 0x60 then .ok .IAdd
  else if byte_code = 0x7e then .ok .IAnd
  else if byte_code = 0x91 then .ok .I2B
  else if byte_code = 0x92 then .ok .I2C
  else if byte_code = 0x87 then .ok .I2D
  else if byte_code = 0x86 then .ok .I2F
  else if byte_code = 0x85 then .ok .I2L
  else if byte_code = 0x93 then .ok .I2S
  else .error (.UnimplementedOpcode byte_code)

/-- The byte values `Interpreter::decode` assigns to opcodes. -/
def assignedOpcodes : List Nat :=
  [0x01, 0x02, 0x03, 0x04, 0x05, 0x06, 0x07, 0x08,
   0x60, 0x7e, 0x91, 0x92, 0x87, 0x86, 0x85, 0x93]

/-- Handler results thread the VM state (Rust mutates in place); a fault
carries the state exactly as it was at the point of fault. -/
abbrev HandlerResult := VM × Option ExecFault

/-- src/env.rs `VMEnv::iconst`. -/
def VMEnv.iconst (vm : VM) (val : Int) : HandlerResult :=
  match vm.push (.Int val) with
  | .ok vm' => (vm', none)
  | .error e => (vm, some e)

/-- src/env.rs `VMEnv::aconst_null`. -/
def VMEnv.aconst_null (vm : VM) : HandlerResult :=
  match vm.push .Null with
  | .ok vm' => (vm', none)
  | .error e => (vm, some e)

/-- src/env.rs `VMEnv::iadd`: pops `a`, pops `b`, pushes `Int(a + b)`
(i32 addition).  Intermediate states are kept so that a fault leaves the
stack exactly as it was when the fault occurred. -/
def VMEnv.iadd (vm : VM) : HandlerResult :=
  match vm.pop with
  | .error e => (vm, some e)
  | .ok (va, vm1) =>
    match va.int with
    | .error e => (vm1, some e)
    | .ok a =>
      match vm1.pop with
      | .error e => (vm1, some e)
      | .ok (vb, vm2) =>
        match vb.int with
        | .error e => (vm2, some e)
        | .ok b =>
          match vm2.push (.Int (i32wrap (a + b))) with
          | .error e => (vm2, some e)
          | .ok vm3 => (vm3, none)

/-- One iteration of the dispatch loop of src/env.rs `VMEnv::execute`:
decode the byte, run the matching handler; `IAnd` and the conversion
opcodes have empty handler bodies (`{}`). -/
def VMEnv.execStep (vm : VM) (instruction : Nat) : HandlerResult :=
  match Interpreter.decode instruction with
  | .error e => (vm, some (.interp e))
  | .ok op =>
    match op with
    | .AConstNull => VMEnv.aconst_null vm
    | .IConst v => VMEnv.iconst vm v
    | .IAdd => VMEnv.iadd vm
    | .IAnd => (vm, none)
    | .I2B => (vm, none)
    | .I2C => (vm, none)
    | .I2D => (vm, none)
    | .I2F => (vm, none)
    | .I2L => (vm, none)
    | .I2S => (vm, none)
    | .IMul => (vm, none)

/-- src/env.rs `VMEnv::execute`: iterate the code bytes in order,
stopping at the first fault and leaving the state as of that point. -/
def VMEnv.execute (vm : VM) : List Nat → HandlerResult
  | [] => (vm, none)
  | b :: rest =>
    match VMEnv.execStep vm b with
    | (vm', none) => VMEnv.execute vm' rest
    | (vm', some e) => (vm', some e)

/-! The loader: src/loader.rs -/

/-- src/loader.rs `ClassLoadError`.  `ClassFileReadFailure` abstracts the
wrapped `std::io::Error` cause; `UnknownConstantPoolTag` models the
`panic!` on an unexpected constant-pool tag byte. -/
inductive ClassLoadError where
  | MagicMismatch (v : Nat)
  | VersionUnsupported (major minor : Nat)
  | ClassFileReadFailure
  | ConstantPoolMissing (idx : Nat)
  | AttributeMissing (name : String)
  | AttributeTypeMismatch (expected actual : String)
  | ConstantPoolTypeMismatch (expected actual : String)
  | UnknownElementValueTag (t : Nat)
  | UnknownConstantPoolTag (t : Nat)
  deriving DecidableEq, Repr

/-- `read_u8`: one byte off the stream; reading past the end is an I/O
error. -/
def read_u8 : List Nat → Except ClassLoadError (Nat × List Nat)
  | [] => .error .ClassFileReadFailure
  | b :: rest => .ok (b, rest)

/-- `read_u16::<BigEndian>`. -/
def read_u16 (bs : List Nat) : Except ClassLoadError (Nat × List Nat) :=
  match read_u8 bs with
  | .error e => .error e
  | .ok (b0, bs1) =>
    match read_u8 bs1 with
    | .error e => .error e
    | .ok (b1, bs2) => .ok (b0 * 0x100 + b1, bs2)

/-- `read_u32::<BigEndian>`. -/
def read_u32 (bs : List Nat) : Except ClassLoadError (Nat × List Nat) :=
  match read_u16 bs with
  | .error e => .error e
  | .ok (h, bs1) =>
    match read_u16 bs1 with
    | .error e => .error e
    | .ok (l, bs2) => .ok (h * 0x10000 + l, bs2)

/-- `read_exact` into a buffer of `n` bytes. -/
def read_exact (bs : List Nat) (n : Nat) : Except ClassLoadError (List Nat × List Nat) :=
  if n ≤ bs.length then .ok (bs.take n, bs.drop n)
  else .error .ClassFileReadFailure

/-- A UTF-8 continuation byte (`10xxxxxx`). -/
def utf8Cont (b : Nat) : Bool := 0x80 ≤ b && b ≤ 0xBF

/-- Strict UTF-8 decoding of a byte list (rejecting overlong encodings and
surrogates), modelling Rust's `String::from_utf8` validation. -/
def utf8DecodeList : List Nat → Option (List Char)
  | [] => some []
  | b :: rest =>
    if b < 0x80 then
      (utf8DecodeList rest).map (fun cs => Char.ofNat b :: cs)
    else if 0xC2 ≤ b && b ≤ 0xDF then
      match rest with
      | b1 :: rest2 =>
        if utf8Cont b1 then
          (utf8DecodeList rest2).map
            (fun cs => Char.ofNat ((b - 0xC0) * 0x40 + (b1 - 0x80)) :: cs)
        else none
      | [] => none
    else if 0xE0 ≤ b && b ≤ 0xEF then
      match rest with
      | b1 :: b2 :: rest3 =>
        if (if b = 0xE0 then 0xA0 else 0x80) ≤ b1 && b1 ≤ (if b = 0xED then 0x9F else 0xBF)
            && utf8Cont b2 then
          (utf8DecodeList rest3).map
            (fun cs => Char.ofNat ((b - 0xE0) * 0x1000 + (b1 - 0x80) * 0x40 + (b2 - 0x80)) :: cs)
        else none
      | _ => none
    else if 0xF0 ≤ b && b ≤ 0xF4 then
      match rest with
      | b1 :: b2 :: b3 :: rest4 =>
        if (if b = 0xF0 then 0x90 else 0x80) ≤ b1 && b1 ≤ (if b = 0xF4 then 0x8F else 0xBF)
            && utf8Cont b2 && utf8Cont b3 then
          (utf8DecodeList rest4).map
            (fun cs => Char.ofNat
              ((b - 0xF0) * 0x40000 + (b1 - 0x80) * 0x1000 + (b2 - 0x80) * 0x40 + (b3 - 0x80)) :: cs)
        else none
      | _ => none
    else none

/-- `String::from_utf8(bytes).unwrap_or("<nil>")` of the Utf8 pool-entry
branch. -/
def poolString (bytes : List Nat) : String :=
  match utf8DecodeList bytes with
  | some cs => String.mk cs
  | none => "<nil>"

/-- src/loader.rs `ConstantPoolTag`. -/
inductive ConstantPoolTag where
  | Class (i : Nat)
  | FieldRef (c n : Nat)
  | MethodRef (c n : Nat)
  | InterfaceMethodRef (c n : Nat)
  | String (i : Nat)
  | Integer (v : Nat)
  | Float (v : Nat)
  | Long (hi lo : Nat)
  | Double (hi lo : Nat)
  | NameAndType (n d : Nat)
  | Utf8 (len : Nat) (bytes : List Nat) (s : String)
  | MethodHandle (kind : Nat) (i : Nat)
  | MethodType (i : Nat)
  | InvokeDynamic (b n : Nat)
  | Dummy
  deriving DecidableEq, Repr

/-- src/loader.rs `ConstantPoolTag::from_reader`: decodes one logical
entry into its pool slots; Long/Double yield the real entry plus a
`Dummy` placeholder slot.  The wildcard arm is the source's `panic!`
on an unexpected tag byte. -/
def ConstantPoolTag.from_reader (bs : List Nat) :
    Except ClassLoadError (List ConstantPoolTag × List Nat) :=
  match read_u8 bs with
  | .error e => .error e
  | .ok (byte, bs1) =>
    if byte = 1 then
      match read_u16 bs1 with
      | .error e => .error e
      | .ok (length, bs2) =>
        match read_exact bs2 length with
        | .error e => .error e
        | .ok (bytes, bs3) => .ok ([.Utf8 length bytes (poolString bytes)], bs3)
    else if byte = 3 then
      match read_u32 bs1 with
      | .error e => .error e
      | .ok (v, bs2) => .ok ([.Integer v], bs2)
    else if byte = 4 then
      match read_u32 bs1 with
      | .error e => .error e
      | .ok (v, bs2) => .ok ([.Float v], bs2)
    else if byte = 5 then
      match read_u32 bs1 with
      | .error e => .error e
      | .ok (hi, bs2) =>
        match read_u32 bs2 with
        | .error e => .error e
        | .ok (lo, bs3) => .ok ([.Long hi lo, .Dummy], bs3)
    else if byte = 6 then
      match read_u32 bs1 with
      | .error e => .error e
      | .ok (hi, bs2) =>
        match read_u32 bs2 with
        | .error e => .error e
        | .ok (lo, bs3) => .ok ([.Double hi lo, .Dummy], bs3)
    else if byte = 7 then
      match read_u16 bs1 with
      | .error e => .error e
      | .ok (i, bs2) => .ok ([.Class i], bs2)
    else if byte = 8 then
      match read_u16 bs1 with
      | .error e => .error e
      | .ok (i, bs2) => .ok ([.String i], bs2)
    else if byte = 9 then
      match read_u16 bs1 with
      | .error e => .error e
      | .ok (c, bs2) =>
        match read_u16 bs2 with
        | .error e => .error e
        | .ok (n, bs3) => .ok ([.FieldRef c n], bs3)
    else if byte = 10 then
      match read_u16 bs1 with
      | .error e => .error e
      | .ok (c, bs2) =>
        match read_u16 bs2 with
        | .error e => .error e
        | .ok (n, bs3) => .ok ([.MethodRef c n], bs3)
    else if byte = 11 then
      match read_u16 bs1 with
      | .error e => .error e
      | .ok (c, bs2) =>
        match read_u16 bs2 with
        | .error e => .error e
        | .ok (n, bs3) => .ok ([.InterfaceMethodRef c n], bs3)
    else if byte = 12 then
      match read_u16 bs1 with
      | .error e => .error e
      | .ok (n, bs2) =>
        match read_u16 bs2 with
        | .error e => .error e
        | .ok (d, bs3) => .ok ([.NameAndType n d], bs3)
    else if byte = 15 then
      match read_u8 bs1 with
      | .error e => .error e
      | .ok (kind, bs2) =>
        match read_u16 bs2 with
        | .error e => .error e
        | .ok (i, bs3) => .ok ([.MethodHandle kind i], bs3)
    else if byte = 16 then
      match read_u16 bs1 with
      | .error e => .error e
      | .ok (i, bs2) => .ok ([.MethodType i], bs2)
    else if byte = 18 then
      match read_u16 bs1 with
      | .error e => .error e
      | .ok (b, bs2) =>
        match read_u16 bs2 with
        | .error e => .error e
        | .ok (n, bs3) => .ok ([.InvokeDynamic b n], bs3)
    else .error (.UnknownConstantPoolTag byte)

/-- src/loader.rs `ClassFileConstantPool`. -/
structure ClassFileConstantPool where
  constant_pool_count : Nat
  constant_pool : List ConstantPoolTag
  deriving DecidableEq, Repr

/-- The number of pool slots the decode loop aims for:
`(constant_pool_count - 1) as usize` with u16 wrap-around at count 0
(Rust release semantics). -/
def poolLoopTarget (count : Nat) : Nat :=
  if count = 0 then 0xFFFF else count - 1

/-- The `loop` of `ClassFileConstantPool::from_reader`: keep decoding
entries until at least `target` slots exist.  The `fuel` parameter makes
the recursion structural; every decoded chunk is non-empty, so fuel
`target + 1` always suffices and the fuel-exhaustion branch is
unreachable. -/
def poolLoop : Nat → Nat → List ConstantPoolTag → List Nat →
    Except ClassLoadError (List ConstantPoolTag × List Nat)
  | 0, _, _, _ => .error .ClassFileReadFailure
  | fuel + 1, target, acc, bs =>
    if target ≤ acc.length then .ok (acc, bs)
    else
      match ConstantPoolTag.from_reader bs with
      | .error e => .error e
      | .ok (tags, rest) => poolLoop fuel target (acc ++ tags) rest

/-- src/loader.rs `ClassFileConstantPool::from_reader`. -/
def ClassFileConstantPool.from_reader (bs : List Nat) :
    Except ClassLoadError (ClassFileConstantPool × List Nat) :=
  match read_u16 bs with
  | .error e => .error e
  | .ok (constant_pool_count, bs1) =>
    match poolLoop (poolLoopTarget constant_pool_count + 1)
        (poolLoopTarget constant_pool_count) [] bs1 with
    | .error e => .error e
    | .ok (pool, rest) =>
      .ok ({ constant_pool_count := constant_pool_count, constant_pool := pool }, rest)

/-- src/loader.rs `AccessFlags` (the `Annotation` variant is spelled
`Annot` here for technical reasons; it plays no role in any claim). -/
inductive AccessFlags where
  | Public
  | Final
  | Super
  | Interface
  | Abstract
  | Synthetic
  | Annot
  | Enum
  | Private
  | Protected
  | Static
  | Volatile
  | Transient
  | Synchronized
  | Bridge
  | Varargs
  | Native
  | Strict
  deriving DecidableEq, Repr

/-- The flag-set construction of `AccessFlags::from_reader`: each test
`value & mask == mask` for the single-bit mask `2 ^ k` is `value.testBit k`,
and the pushes happen in the source's order.  Bits `0x0020`, `0x0040` and
`0x0080` are context-sensitive on `is_method`. -/
def accessFlagsOf (value : Nat) (is_method : Bool) : List AccessFlags :=
  (if value.testBit 0 then [AccessFlags.Public] else []) ++
  (if value.testBit 1 then [AccessFlags.Private] else []) ++
  (if value.testBit 2 then [AccessFlags.Protected] else []) ++
  (if value.testBit 3 then [AccessFlags.Static] else []) ++
  (if value.testBit 4 then [AccessFlags.Final] else []) ++
  (if value.testBit 5 then
    if is_method then [AccessFlags.Synchronized] else [AccessFlags.Super]
   else []) ++
  (if value.testBit 6 then
    if is_method then [AccessFlags.Bridge] else [AccessFlags.Volatile]
   else []) ++
  (if value.testBit 7 then
    if is_method then [AccessFlags.Varargs] else [AccessFlags.Transient]
   else []) ++
  (if value.testBit 8 then [AccessFlags.Native] else []) ++
  (if value.testBit 9 then [AccessFlags.Interface] else []) ++
  (if value.testBit 10 then [AccessFlags.Abstract] else []) ++
  (if value.testBit 11 then [AccessFlags.Strict] else []) ++
  (if value.testBit 12 then [AccessFlags.Synthetic] else []) ++
  (if value.testBit 13 then [AccessFlags.Annot] else []) ++
  (if value.testBit 14 then [AccessFlags.Enum] else [])

/-- src/loader.rs `AccessFlags::from_reader`. -/
def AccessFlags.from_reader (bs : List Nat) (is_method : Bool) :
    Except ClassLoadError (List AccessFlags × List Nat) :=
  match read_u16 bs with
  | .error e => .error e
  | .ok (value, bs1) => .ok (accessFlagsOf value is_method, bs1)

/-- Shared shape of the source's `for _ in 0..n { push(f(reader)?) }`
loops: read `n` records in order. -/
def readN {α : Type} (f : List Nat → Except ClassLoadError (α × List Nat)) :
    Nat → List Nat → Except ClassLoadError (List α × List Nat)
  | 0, bs => .ok ([], bs)
  | n + 1, bs =>
    match f bs with
    | .error e => .error e
    | .ok (a, bs1) =>
      match readN f n bs1 with
      | .error e => .error e
      | .ok (as_, bs2) => .ok (a :: as_, bs2)

/-- src/loader.rs `ClassFileInterfaces`. -/
structure ClassFileInterfaces where
  interfaces_count : Nat
  interfaces : List Nat
  deriving DecidableEq, Repr

/-- src/loader.rs `ClassFileInterfaces::from_reader`. -/
def ClassFileInterfaces.from_reader (bs : List Nat) :
    Except ClassLoadError (ClassFileInterfaces × List Nat) :=
  match read_u16 bs with
  | .error e => .error e
  | .ok (interfaces_count, bs1) =>
    match readN read_u16 interfaces_count bs1 with
    | .error e => .error e
    | .ok (interfaces, bs2) =>
      .ok ({ interfaces_count := interfaces_count, interfaces := interfaces }, bs2)

/-- src/loader.rs `AttributeInfo`. -/
structure AttributeInfo where
  attribute_name_index : Nat
  attribute_length : Nat
  info : List Nat
  deriving DecidableEq, Repr

/-- src/loader.rs `AttributeInfo::from_reader` (and the byte-identical
`AttributeInfo::from_cursor`). -/
def AttributeInfo.from_reader (bs : List Nat) :
    Except ClassLoadError (AttributeInfo × List Nat) :=
  match read_u16 bs with
  | .error e => .error e
  | .ok (attribute_name_index, bs1) =>
    match read_u32 bs1 with
    | .error e => .error e
    | .ok (attribute_length, bs2) =>
      match read_exact bs2 attribute_length with
      | .error e => .error e
      | .ok (info, bs3) =>
        .ok ({ attribute_name_index := attribute_name_index,
               attribute_length := attribute_length, info := info }, bs3)

/-- src/loader.rs `ClassFileAttributes`. -/
structure ClassFileAttributes where
  attributes_count : Nat
  attributes : List AttributeInfo
  deriving DecidableEq, Repr

/-- src/loader.rs `ClassFileAttributes::from_reader`. -/
def ClassFileAttributes.from_reader (bs : List Nat) :
    Except ClassLoadError (ClassFileAttributes × List Nat) :=
  match read_u16 bs with
  | .error e => .error e
  | .ok (attributes_count, bs1) =>
    match readN AttributeInfo.from_reader attributes_count bs1 with
    | .error e => .error e
    | .ok (attributes, bs2) =>
      .ok ({ attributes_count := attributes_count, attributes := attributes }, bs2)

/-- src/loader.rs `FieldInfo`. -/
structure FieldInfo where
  access_flags : List AccessFlags
  name_index : Nat
  description_index : Nat
  attributes : ClassFileAttributes
  deriving DecidableEq, Repr

/-- src/loader.rs `FieldInfo::from_reader` (field context:
`is_method = false`). -/
def FieldInfo.from_reader (bs : List Nat) :
    Except ClassLoadError (FieldInfo × List Nat) :=
  match AccessFlags.from_reader bs false with
  | .error e => .error e
  | .ok (access_flags, bs1) =>
    match read_u16 bs1 with
    | .error e => .error e
    | .ok (name_index, bs2) =>
      match read_u16 bs2 with
      | .error e => .error e
      | .ok (description_index, bs3) =>
        match ClassFileAttributes.from_reader bs3 with
        | .error e => .error e
        | .ok (attributes, bs4) =>
          .ok ({ access_flags := access_flags, name_index := name_index,
                 description_index := description_index, attributes := attributes }, bs4)

/-- src/loader.rs `ClassFileFields`. -/
structure ClassFileFields where
  fields_count : Nat
  fields : List FieldInfo
  deriving DecidableEq, Repr

/-- src/loader.rs `ClassFileFields::from_reader`. -/
def ClassFileFields.from_reader (bs : List Nat) :
    Except ClassLoadError (ClassFileFields × List Nat) :=
  match read_u16 bs with
  | .error e => .error e
  | .ok (fields_count, bs1) =>
    match readN FieldInfo.from_reader fields_count bs1 with
    | .error e => .error e
    | .ok (fields, bs2) =>
      .ok ({ fields_count := fields_count, fields := fields }, bs2)

/-- src/loader.rs `MethodInfo`. -/
structure MethodInfo where
  access_flags : List AccessFlags
  name_index : Nat
  description_index : Nat
  attributes : ClassFileAttributes
  deriving DecidableEq, Repr

/-- src/loader.rs `MethodInfo::from_reader`.  Note: the source passes
`is_method = false` to `AccessFlags::from_reader` here, so method access
flags are decoded in class/field context. -/
def MethodInfo.from_reader (bs : List Nat) :
    Except ClassLoadError (MethodInfo × List Nat) :=
  match AccessFlags.from_reader bs false with
  | .error e => .error e
  | .ok (access_flags, bs1) =>
    match read_u16 bs1 with
    | .error e => .error e
    | .ok (name_index, bs2) =>
      match read_u16 bs2 with
      | .error e => .error e
      | .ok (description_index, bs3) =>
        match ClassFileAttributes.from_reader bs3 with
        | .error e => .error e
        | .ok (attributes, bs4) =>
          .ok ({ access_flags := access_flags, name_index := name_index,
                 description_index := description_index, attributes := attributes }, bs4)

/-- src/loader.rs `ClassFileMethods`. -/
structure ClassFileMethods where
  methods_count : Nat
  methods : List MethodInfo
  deriving DecidableEq, Repr

/-- src/loader.rs `ClassFileMethods::from_reader`. -/
def ClassFileMethods.from_reader (bs : List Nat) :
    Except ClassLoadError (ClassFileMethods × List Nat) :=
  match read_u16 bs with
  | .error e => .error e
  | .ok (methods_count, bs1) =>
    match readN MethodInfo.from_reader methods_count bs1 with
    | .error e => .error e
    | .ok (methods, bs2) =>
      .ok ({ methods_count := methods_count, methods := methods }, bs2)

/-- src/loader.rs `ClassFileHeader`. -/
structure ClassFileHeader where
  magic : Nat
  version_minor : Nat
  version_major : Nat
  constant_pool : ClassFileConstantPool
  access_flags : List AccessFlags
  this_class : Nat
  super_class : Nat
  interfaces : ClassFileInterfaces
  fields : ClassFileFields
  methods : ClassFileMethods
  attributes : ClassFileAttributes
  deriving DecidableEq, Repr

/-- src/loader.rs `ClassFileHeader::from_reader`: reads every section in
order first, and only then checks the magic sentinel and the supported
major-version range 51..=60. -/
def ClassFileHeader.from_reader (bs : List Nat) :
    Except ClassLoadError (ClassFileHeader × List Nat) :=
  match read_u32 bs with
  | .error e => .error e
  | .ok (magic, bs1) =>
    match read_u16 bs1 with
    | .error e => .error e
    | .ok (version_minor, bs2) =>
      match read_u16 bs2 with
      | .error e => .error e
      | .ok (version_major, bs3) =>
        match ClassFileConstantPool.from_reader bs3 with
        | .error e => .error e
        | .ok (constant_pool, bs4) =>
          match AccessFlags.from_reader bs4 false with
          | .error e => .error e
          | .ok (access_flags, bs5) =>
            match read_u16 bs5 with
            | .error e => .error e
            | .ok (this_class, bs6) =>
              match read_u16 bs6 with
              | .error e => .error e
              | .ok (super_class, bs7) =>
                match ClassFileInterfaces.from_reader bs7 with
                | .error e => .error e
                | .ok (interfaces, bs8) =>
                  match ClassFileFields.from_reader bs8 with
                  | .error e => .error e
                  | .ok (fields, bs9) =>
                    match ClassFileMethods.from_reader bs9 with
                    | .error e => .error e
                    | .ok (methods, bs10) =>
                      match ClassFileAttributes.from_reader bs10 with
                      | .error e => .error e
                      | .ok (attributes, bs11) =>
                        let header : ClassFileHeader :=
                          { magic := magic, version_minor := version_minor,
                            version_major := version_major,
                            constant_pool := constant_pool,
                            access_flags := access_flags,
                            this_class := this_class, super_class := super_class,
                            interfaces := interfaces, fields := fields,
                            methods := methods, attributes := attributes }
                        if header.magic ≠ 0xCAFEBABE then
                          .error (.MagicMismatch header.magic)
                        else if header.version_major < 51 ∨ 60 < header.version_major then
                          .error (.VersionUnsupported header.version_major header.version_minor)
                        else .ok (header, bs11)

/-- src/loader.rs `ExceptionEntry`. -/
structure ExceptionEntry where
  pc_start : Nat
  pc_end : Nat
  handler_pc : Nat
  catch_type : Nat
  deriving DecidableEq, Repr

/-- src/loader.rs `ExceptionEntry::from_reader`. -/
def ExceptionEntry.from_reader (bs : List Nat) :
    Except ClassLoadError (ExceptionEntry × List Nat) :=
  match read_u16 bs with
  | .error e => .error e
  | .ok (pc_start, bs1) =>
    match read_u16 bs1 with
    | .error e => .error e
    | .ok (pc_end, bs2) =>
      match read_u16 bs2 with
      | .error e => .error e
      | .ok (handler_pc, bs3) =>
        match read_u16 bs3 with
        | .error e => .error e
        | .ok (catch_type, bs4) =>
          .ok ({ pc_start := pc_start, pc_end := pc_end,
                 handler_pc := handler_pc, catch_type := catch_type }, bs4)

/-! The recursive annotation grammar of src/loader.rs.  The source type
`Annotation` is spelled `Annot` here (and derived names accordingly) for
technical reasons; the structure is otherwise identical. -/

mutual
/-- src/loader.rs `Annotation`. -/
inductive Annot where
  | mk (type_index : Nat) (num_element_value_pairs : Nat)
       (element_value_pairs : List ElementValuePair)

/-- src/loader.rs `ElementValuePair`. -/
inductive ElementValuePair where
  | mk (name_index : Nat) (value : ElementValue)

/-- src/loader.rs `ElementValue`. -/
inductive ElementValue where
  | ConstValueIndex (i : Nat)
  | EnumConstValue (t n : Nat)
  | ClassInfoIndex (i : Nat)
  | AnnotValue (a : Annot)
  | ArrayValue (n : Nat) (vs : List ElementValue)
end

mutual
/-- src/loader.rs `ElementValue::from_cursor`.  The `fuel` parameter makes
the source's recursive descent structural; every recursion step first
consumes at least one byte from the shrinking cursor, so the callers'
fuel (more than the cursor length) never runs out.  Tag bytes are the
character codes of the source's `match tag as char` arms. -/
def ElementValue.from_cursor : Nat → List Nat →
    Except ClassLoadError (ElementValue × List Nat)
  | 0, _ => .error .ClassFileReadFailure
  | fuel + 1, bs =>
    match read_u8 bs with
    | .error e => .error e
    | .ok (tag, bs1) =>
      if tag = 115 ∨ tag = 66 ∨ tag = 67 ∨ tag = 68 ∨ tag = 70 ∨
         tag = 73 ∨ tag = 74 ∨ tag = 83 ∨ tag = 90 then
        match read_u16 bs1 with
        | .error e => .error e
        | .ok (i, bs2) => .ok (.ConstValueIndex i, bs2)
      else if tag = 101 then
        match read_u16 bs1 with
        | .error e => .error e
        | .ok (t, bs2) =>
          match read_u16 bs2 with
          | .error e => .error e
          | .ok (n, bs3) => .ok (.EnumConstValue t n, bs3)
      else if tag = 99 then
        match read_u16 bs1 with
        | .error e => .error e
        | .ok (i, bs2) => .ok (.ClassInfoIndex i, bs2)
      else if tag = 64 then
        match Annot.from_cursor fuel bs1 with
        | .error e => .error e
        | .ok (a, bs2) => .ok (.AnnotValue a, bs2)
      else if tag = 91 then
        match read_u16 bs1 with
        | .error e => .error e
        | .ok (num_values, bs2) =>
          match ElementValue.read_list fuel num_values bs2 with
          | .error e => .error e
          | .ok (values, bs3) => .ok (.ArrayValue num_values values, bs3)
      else .error (.UnknownElementValueTag tag)

/-- The `for _ in 0..num_values` loop inside the array arm of
`ElementValue::from_cursor`. -/
def ElementValue.read_list : Nat → Nat → List Nat →
    Except ClassLoadError (List ElementValue × List Nat)
  | 0, _, _ => .error .ClassFileReadFailure
  | _ + 1, 0, bs => .ok ([], bs)
  | fuel + 1, n + 1, bs =>
    match ElementValue.from_cursor fuel bs with
    | .error e => .error e
    | .ok (v, bs1) =>
      match ElementValue.read_list fuel n bs1 with
      | .error e => .error e
      | .ok (vs, bs2) => .ok (v :: vs, bs2)

/-- src/loader.rs `ElementValuePair::from_cursor`. -/
def ElementValuePair.from_cursor : Nat → List Nat →
    Except ClassLoadError (ElementValuePair × List Nat)
  | 0, _ => .error .ClassFileReadFailure
  | fuel + 1, bs =>
    match read_u16 bs with
    | .error e => .error e
    | .ok (name_index, bs1) =>
      match ElementValue.from_cursor fuel bs1 with
      | .error e => .error e
      | .ok (value, bs2) => .ok (.mk name_index value, bs2)

/-- The `for _ in 0..num_element_value_pairs` loop of
`Annotation::from_cursor`. -/
def ElementValuePair.read_list : Nat → Nat → List Nat →
    Except ClassLoadError (List ElementValuePair × List Nat)
  | 0, _, _ => .error .ClassFileReadFailure
  | _ + 1, 0, bs => .ok ([], bs)
  | fuel + 1, n + 1, bs =>
    match ElementValuePair.from_cursor fuel bs with
    | .error e => .error e
    | .ok (p, bs1) =>
      match ElementValuePair.read_list fuel n bs1 with
      | .error e => .error e
      | .ok (ps, bs2) => .ok (p :: ps, bs2)

/-- src/loader.rs `Annotation::from_cursor`. -/
def Annot.from_cursor : Nat → List Nat →
    Except ClassLoadError (Annot × List Nat)
  | 0, _ => .error .ClassFileReadFailure
  | fuel + 1, bs =>
    match read_u16 bs with
    | .error e => .error e
    | .ok (type_index, bs1) =>
      match read_u16 bs1 with
      | .error e => .error e
      | .ok (num_element_value_pairs, bs2) =>
        match ElementValuePair.read_list fuel num_element_value_pairs bs2 with
        | .error e => .error e
        | .ok (pairs, bs3) => .ok (.mk type_index num_element_value_pairs pairs, bs3)
end

/-- src/loader.rs `ParameterAnnotation`. -/
structure ParamAnnot where
  num_annots : Nat
  annots : List Annot

/-- src/loader.rs `ParameterAnnotation::from_cursor`. -/
def ParamAnnot.from_cursor (fuel : Nat) (bs : List Nat) :
    Except ClassLoadError (ParamAnnot × List Nat) :=
  match read_u16 bs with
  | .error e => .error e
  | .ok (num_annots, bs1) =>
    match readN (Annot.from_cursor fuel) num_annots bs1 with
    | .error e => .error e
    | .ok (annots, bs2) => .ok ({ num_annots := num_annots, annots := annots }, bs2)

/-- src/loader.rs `AttributeValue` (the two RuntimeInvisible…Annotations
variants are abbreviated with `Annots`; the attribute-name strings they
are selected by are unchanged). -/
inductive AttributeValue where
  | ConstantValue (i : Nat)
  | SourceFile (i : Nat)
  | Code (max_stack max_locals code_length : Nat) (code : List Nat)
         (exc_table_length : Nat) (exc_table : List ExceptionEntry)
         (attributes_count : Nat) (attr_table : List AttributeInfo)
  | RuntimeInvisibleParamAnnots (num_parameters : Nat) (parameters : List ParamAnnot)
  | RuntimeInvisibleAnnots (num_annots : Nat) (annots : List Annot)
  | Unidentified (bytes : List Nat)

/-- src/loader.rs `AttributeValue::from_name_and_info`: interprets a raw
attribute's bytes according to its resolved name; unrecognized names pass
through as `Unidentified`.  Trailing bytes after the parsed prefix are
ignored, as with the source's cursor.  The annotation parsers get fuel
exceeding the cursor length, so their fuel never runs out. -/
def AttributeValue.from_name_and_info (name : String) (info : List Nat) :
    Except ClassLoadError AttributeValue :=
  if name = "ConstantValue" then
    match read_u16 info with
    | .error e => .error e
    | .ok (i, _) => .ok (.ConstantValue i)
  else if name = "SourceFile" then
    match read_u16 info with
    | .error e => .error e
    | .ok (i, _) => .ok (.SourceFile i)
  else if name = "Code" then
    match read_u16 info with
    | .error e => .error e
    | .ok (max_stack, c1) =>
      match read_u16 c1 with
      | .error e => .error e
      | .ok (max_locals, c2) =>
        match read_u32 c2 with
        | .error e => .error e
        | .ok (code_length, c3) =>
          match read_exact c3 code_length with
          | .error e => .error e
          | .ok (code, c4) =>
            match read_u16 c4 with
            | .error e => .error e
            | .ok (exc_table_length, c5) =>
              match readN ExceptionEntry.from_reader exc_table_length c5 with
              | .error e => .error e
              | .ok (exc_table, c6) =>
                match read_u16 c6 with
                | .error e => .error e
                | .ok (attributes_count, c7) =>
                  match readN AttributeInfo.from_reader attributes_count c7 with
                  | .error e => .error e
                  | .ok (attr_table, _) =>
                    .ok (.Code max_stack max_locals code_length code
                          exc_table_length exc_table attributes_count attr_table)
  else if name = "RuntimeInvisibleParameterAnnotations" then
    match read_u8 info with
    | .error e => .error e
    | .ok (num_parameters, c1) =>
      match readN (ParamAnnot.from_cursor (info.length + 1)) num_parameters c1 with
      | .error e => .error e
      | .ok (parameters, _) => .ok (.RuntimeInvisibleParamAnnots num_parameters parameters)
  else if name = "RuntimeInvisibleAnnotations" then
    match read_u16 info with
    | .error e => .error e
    | .ok (num_annots, c1) =>
      match readN (Annot.from_cursor (info.length + 1)) num_annots c1 with
      | .error e => .error e
      | .ok (annots, _) => .ok (.RuntimeInvisibleAnnots num_annots annots)
  else .ok (.Unidentified info)

/-- Alias for `String` usable inside the `ConstantPoolTag` namespace,
where the plain name would refer to the `String` pool-entry constructor. -/
abbrev Str : Type := String

/-- Abbreviated stand-in for Rust's `format!("{:?}", tag)` in error
payloads: the constructor name.  No claim inspects these strings; only
which error constructor is produced matters. -/
def ConstantPoolTag.debugString : ConstantPoolTag → Str
  | .Class _ => "Class"
  | .FieldRef _ _ => "FieldRef"
  | .MethodRef _ _ => "MethodRef"
  | .InterfaceMethodRef _ _ => "InterfaceMethodRef"
  | .String _ => "String"
  | .Integer _ => "Integer"
  | .Float _ => "Float"
  | .Long _ _ => "Long"
  | .Double _ _ => "Double"
  | .NameAndType _ _ => "NameAndType"
  | .Utf8 _ _ _ => "Utf8"
  | .MethodHandle _ _ => "MethodHandle"
  | .MethodType _ => "MethodType"
  | .InvokeDynamic _ _ => "InvokeDynamic"
  | .Dummy => "Dummy"

/-- Abbreviated stand-in for Rust's `format!("{:?}", value)` on attribute
values in error payloads (constructor name only). -/
def AttributeValue.debugString : AttributeValue → String
  | .ConstantValue _ => "ConstantValue"
  | .SourceFile _ => "SourceFile"
  | .Code _ _ _ _ _ _ _ _ => "Code"
  | .RuntimeInvisibleParamAnnots _ _ => "RuntimeInvisibleParameterAnnotations"
  | .RuntimeInvisibleAnnots _ _ => "RuntimeInvisibleAnnotations"
  | .Unidentified _ => "Unidentified"

/-- src/loader.rs `ClassReader`. -/
structure ClassReader where
  header : ClassFileHeader

/-- src/loader.rs `ClassReader::get_constant_value`: 1-based pool lookup
via `constant_pool.get(key - 1)`.  `key - 1` on a `usize` key of 0 wraps
to `usize::MAX` (Rust release semantics), which is past the end of any
pool the decoder can build, so the lookup yields `none`. -/
def ClassReader.get_constant_value (r : ClassReader) (key : Nat) :
    Option ConstantPoolTag :=
  if key = 0 then none
  else r.header.constant_pool.constant_pool[key - 1]?

/-- src/loader.rs `ClassReader::get_constant_utf8`: some value only when
the entry exists and is a Utf8 entry. -/
def ClassReader.get_constant_utf8 (r : ClassReader) (index : Nat) : Option String :=
  match r.get_constant_value index with
  | some (.Utf8 _ _ value) => some value
  | _ => none

/-- src/loader.rs `ClassReader::get_attribute_value` (the source's
parameter `attribute` is spelled `attr` here; `attribute` is a Lean
keyword). -/
def ClassReader.get_attribute_value (r : ClassReader) (attr : AttributeInfo) :
    Except ClassLoadError (String × AttributeValue) :=
  match r.get_constant_utf8 attr.attribute_name_index with
  | some name =>
    match AttributeValue.from_name_and_info name attr.info with
    | .error e => .error e
    | .ok v => .ok (name, v)
  | none => .error (.ConstantPoolMissing attr.attribute_name_index)

/-- The linear scan inside src/loader.rs `ClassReader::get_class_attribute`. -/
def ClassReader.get_class_attribute_go (r : ClassReader) (name : String) :
    List AttributeInfo → Except ClassLoadError AttributeValue
  | [] => .error (.AttributeMissing name)
  | a :: rest =>
    match r.get_attribute_value a with
    | .error e => .error e
    | .ok (attr_name, value) =>
      if name = attr_name then .ok value
      else r.get_class_attribute_go name rest

/-- src/loader.rs `ClassReader::get_class_attribute`. -/
def ClassReader.get_class_attribute (r : ClassReader) (name : String) :
    Except ClassLoadError AttributeValue :=
  r.get_class_attribute_go name r.header.attributes.attributes

/-- src/loader.rs `ClassReader::get_source_file`. -/
def ClassReader.get_source_file (r : ClassReader) : Except ClassLoadError String :=
  match r.get_class_attribute "SourceFile" with
  | .error e => .error e
  | .ok (.SourceFile name_index) =>
    match r.get_constant_utf8 name_index with
    | some s => .ok s
    | none => .error (.AttributeMissing "SourceFile")
  | .ok x => .error (.AttributeTypeMismatch "SourceFile" x.debugString)

/-- src/loader.rs `ClassReader::get_class_name`: this-class ref → Class
entry → Utf8 name, with the defensive NameAndType fallback. -/
def ClassReader.get_class_name (r : ClassReader) : Except ClassLoadError String :=
  match r.get_constant_value r.header.this_class with
  | none => .error (.ConstantPoolMissing r.header.this_class)
  | some (.Class class_index) =>
    match r.get_constant_value class_index with
    | none => .error (.ConstantPoolMissing class_index)
    | some (.Utf8 _ _ name) => .ok name
    | some (.NameAndType name_index _) =>
      match r.get_constant_utf8 name_index with
      | some s => .ok s
      | none => .error (.ConstantPoolMissing name_index)
    | some x => .error (.ConstantPoolTypeMismatch "NameAndType" x.debugString)
  | some entry => .error (.ConstantPoolTypeMismatch "Class" entry.debugString)

/-- src/loader.rs `Method`. -/
structure Method where
  method_name : String
  code : List Nat
  deriving DecidableEq, Repr

/-- `HashMap::insert` on the name-keyed method map, modelled on an
association list: replace the entry with the same key, else append. -/
def insertMethod (map : List (String × Method)) (k : String) (v : Method) :
    List (String × Method) :=
  if map.any (fun p => p.1 = k) then
    map.map (fun p => if p.1 = k then (k, v) else p)
  else map ++ [(k, v)]

/-- The attribute scan inside src/loader.rs `ClassReader::get_methods`:
resolve each attribute's name, interpret it, and keep the code bytes of
the last Code attribute seen.  A failed name lookup reports
`ConstantPoolMissing` carrying the METHOD's `name_index` (a source
quirk: the source uses `name_index`, not the attribute's index, in that
`ok_or`). -/
def ClassReader.method_code_loop (r : ClassReader) (method_name_index : Nat) :
    List AttributeInfo → List Nat → Except ClassLoadError (List Nat)
  | [], code => .ok code
  | a :: rest, code =>
    match r.get_constant_utf8 a.attribute_name_index with
    | none => .error (.ConstantPoolMissing method_name_index)
    | some attribute_name =>
      match AttributeValue.from_name_and_info attribute_name a.info with
      | .error e => .error e
      | .ok (.Code _ _ _ code' _ _ _ _) => r.method_code_loop method_name_index rest code'
      | .ok _ => r.method_code_loop method_name_index rest code

/-- The method loop of src/loader.rs `ClassReader::get_methods`. -/
def ClassReader.get_methods_go (r : ClassReader) :
    List MethodInfo → List (String × Method) →
    Except ClassLoadError (List (String × Method))
  | [], map => .ok map
  | m :: rest, map =>
    match r.get_constant_utf8 m.name_index with
    | none => .error (.ConstantPoolMissing m.name_index)
    | some method_name =>
      match r.get_constant_utf8 m.description_index with
      | none => .error (.ConstantPoolMissing m.description_index)
      | some _description =>
        match r.method_code_loop m.name_index m.attributes.attributes [] with
        | .error e => .error e
        | .ok method_code =>
          r.get_methods_go rest
            (insertMethod map method_name
              { method_name := method_name, code := method_code })

/-- src/loader.rs `ClassReader::get_methods`. -/
def ClassReader.get_methods (r : ClassReader) :
    Except ClassLoadError (List (String × Method)) :=
  r.get_methods_go r.header.methods.methods []

/-- src/loader.rs `Class`. -/
structure Class where
  class_name : String
  source_file_name : String
  methods : List (String × Method)
  deriving DecidableEq, Repr

/-- src/loader.rs `Class::from_header`. -/
def Class.from_header (header : ClassFileHeader) : Except ClassLoadError Class :=
  let reader : ClassReader := { header := header }
  match reader.get_source_file with
  | .error e => .error e
  | .ok source_file_name =>
    match reader.get_class_name with
    | .error e => .error e
    | .ok class_name =>
      match reader.get_methods with
      | .error e => .error e
      | .ok methods =>
        .ok { class_name := class_name, source_file_name := source_file_name,
              methods := methods }

/-- src/loader.rs `Class::get_main`. -/
def Class.get_main (c : Class) : Option Method :=
  (c.methods.find? (fun p => p.1 = "main")).map (fun p => p.2)

/-- src/loader.rs `Loader::load_from_reader` over a byte stream. -/
def Loader.load_from_reader (bs : List Nat) : Except ClassLoadError Class :=
  match ClassFileHeader.from_reader bs with
  | .error e => .error e
  | .ok (header, _) => Class.from_header header

/-! Theorems about the claims. -/

/-- Running a prefix of the code without a fault continues with the rest of
the code from the reached state. -/
theorem execute_ok_append (suf : List Nat) :
    ∀ (pre : List Nat) (vm vm' : VM), VMEnv.execute vm pre = (vm', none) →
    VMEnv.execute vm (pre ++ suf) = VMEnv.execute vm' suf := by
  intro pre
  induction pre with
  | nil =>
    intro vm vm' h
    simp only [VMEnv.execute] at h
    cases h
    simp
  | cons b rest ih =>
    intro vm vm' h
    simp only [VMEnv.execute, List.cons_append] at h ⊢
    cases hstep : VMEnv.execStep vm b with
    | mk vm1 oe =>
      rw [hstep] at h
      cases oe with
      | none => exact ih vm1 vm' h
      | some e => cases h

/-- C5: popping the operand stack with the top-of-stack index at 0 fails
with the stack-underflow fault and returns no value. -/
theorem C5_pop_empty_underflow (vm : VM) (h : vm.interop_stack_ptr = 0) :
    VM.pop vm = .error .stackUnderflow := by
  unfold VM.pop
  rw [if_pos h]

theorem C5_witness :
    VM.pop (VM.new 16) = Except.error ExecFault.stackUnderflow :=
  C5_pop_empty_underflow (VM.new 16) rfl

/-- C9: under the stack invariant `0 ≤ ptr ≤ storage length` (with the size
counter tracking the storage length), every push succeeds and preserves the
invariant — overwriting the slot in place without growing storage when the
index is strictly below the storage length, and growing storage by one
element when the index equals the storage length — and every successful pop
preserves the invariant. -/
theorem C9_push_pop_invariant (vm : VM) (v : VMValue) (hok : StackOk vm) :
    (∃ vm', VM.push vm v = .ok vm' ∧ StackOk vm' ∧
      (vm.interop_stack_ptr < vm.interop_stack.length →
        vm'.interop_stack = vm.interop_stack.set vm.interop_stack_ptr v ∧
        vm'.interop_stack.length = vm.interop_stack.length) ∧
      (vm.interop_stack_ptr = vm.interop_stack.length →
        vm'.interop_stack.length = vm.interop_stack.length + 1)) ∧
    (∀ w vm'', VM.pop vm = .ok (w, vm'') → StackOk vm'') := by
  obtain ⟨hle, hsz⟩ := hok
  constructor
  · by_cases hps : vm.interop_stack_ptr = vm.interop_stack_size
    · refine ⟨_, by unfold VM.push; rw [if_pos hps], ?_, ?_, ?_⟩
      · refine ⟨?_, ?_⟩
        · show vm.interop_stack_ptr + 1 ≤ vm.interop_stack_size + 1
          omega
        · show vm.interop_stack_size + 1 = (vm.interop_stack ++ [v]).length
          simp [hsz]
      · intro hlt
        exact absurd hlt (by omega)
      · intro _
        show (vm.interop_stack ++ [v]).length = vm.interop_stack.length + 1
        simp
    · have hlt : vm.interop_stack_ptr < vm.interop_stack_size := by omega
      have hlen : vm.interop_stack_ptr < vm.interop_stack.length := by omega
      refine ⟨_, by unfold VM.push; rw [if_neg hps, if_pos hlt, if_pos hlen], ?_, ?_, ?_⟩
      · refine ⟨?_, ?_⟩
        · show vm.interop_stack_ptr + 1 ≤ vm.interop_stack_size
          omega
        · show vm.interop_stack_size = (vm.interop_stack.set vm.interop_stack_ptr v).length
          simp [hsz]
      · intro _
        exact ⟨rfl, by simp⟩
      · intro heq
        exact absurd heq (by omega)
  · intro w vm'' hpop
    unfold VM.pop at hpop
    by_cases hz : vm.interop_stack_ptr = 0
    · rw [if_pos hz] at hpop; cases hpop
    · rw [if_neg hz] at hpop
      cases hget : vm.interop_stack[vm.interop_stack_ptr - 1]? with
      | none => rw [hget] at hpop; cases hpop
      | some u =>
        rw [hget] at hpop
        cases hpop
        refine ⟨?_, hsz⟩
        show vm.interop_stack_ptr - 1 ≤ vm.interop_stack_size
        omega

/-- A VM whose top-of-stack pointer sits below the storage frontier: a push
overwrites in place. -/
def vmBelowFrontier : VM :=
  { interop_stack := [VMValue.Int 1], interop_stack_ptr := 0, interop_stack_size := 1 }

/-- A VM whose top-of-stack pointer sits at the storage frontier: a push
grows the storage. -/
def vmAtFrontier : VM :=
  { interop_stack := [VMValue.Int 1], interop_stack_ptr := 1, interop_stack_size := 1 }

theorem C9_witness :
    (∃ vm', VM.push vmBelowFrontier (VMValue.Int 2) = .ok vm' ∧ StackOk vm' ∧
        vm'.interop_stack = [VMValue.Int 2] ∧ vm'.interop_stack.length = 1) ∧
    (∃ vm', VM.push vmAtFrontier (VMValue.Int 2) = .ok vm' ∧ StackOk vm' ∧
        vm'.interop_stack.length = 2) := by
  constructor
  · obtain ⟨vm', h1, h2, h3, -⟩ :=
      (C9_push_pop_invariant vmBelowFrontier (VMValue.Int 2) (by constructor <;> decide)).1
    obtain ⟨h4, h5⟩ := h3 (by decide)
    exact ⟨vm', h1, h2, h4, h5⟩
  · obtain ⟨vm', h1, h2, -, h3⟩ :=
      (C9_push_pop_invariant vmAtFrontier (VMValue.Int 2) (by constructor <;> decide)).1
    exact ⟨vm', h1, h2, h3 (by decide)⟩

/-- C10: byte 0x7e decodes to the IAnd opcode, and executing it performs no
state change and reports no error — the operand stack is left exactly as it
was, the same silent no-op the conversion-family instructions (such as
0x91, i2b) have. -/
theorem C10_iand_silent_noop :
    Interpreter.decode 0x7e = .ok .IAnd ∧
    ∀ vm : VM, VMEnv.execStep vm 0x7e = (vm, none) ∧
      VMEnv.execStep vm 0x91 = (vm, none) := by
  exact ⟨rfl, fun vm => ⟨rfl, rfl⟩⟩

/-- C4: a code byte not assigned to any opcode decodes to the
`UnimplementedOpcode` error carrying that byte; execution of any code
containing it stops at that byte with that error, and the operand stack is
exactly the state reached after the preceding instructions — the faulting
instruction mutates nothing. -/
theorem C4_unassigned_byte_faults (b : Nat) (hb : b ∉ assignedOpcodes) :
    Interpreter.decode b = .error (.UnimplementedOpcode b) ∧
    ∀ (vm vm' : VM) (pre rest : List Nat),
      VMEnv.execute vm pre = (vm', none) →
      VMEnv.execute vm (pre ++ b :: rest) =
        (vm', some (.interp (.UnimplementedOpcode b))) := by
  have hb' : ¬(b = 0x01 ∨ b = 0x02 ∨ b = 0x03 ∨ b = 0x04 ∨ b = 0x05 ∨ b = 0x06 ∨
      b = 0x07 ∨ b = 0x08 ∨ b = 0x60 ∨ b = 0x7e ∨ b = 0x91 ∨ b = 0x92 ∨ b = 0x87 ∨
      b = 0x86 ∨ b = 0x85 ∨ b = 0x93) := by
    simpa [assignedOpcodes] using hb
  push_neg at hb'
  obtain ⟨n1, n2, n3, n4, n5, n6, n7, n8, n9, n10, n11, n12, n13, n14, n15, n16⟩ := hb'
  have hdec : Interpreter.decode b = .error (.UnimplementedOpcode b) := by
    simp [Interpreter.decode, n1, n2, n3, n4, n5, n6, n7, n8, n9, n10, n11, n12,
      n13, n14, n15, n16]
  refine ⟨hdec, ?_⟩
  intro vm vm' pre rest hpre
  rw [execute_ok_append (b :: rest) pre vm vm' hpre]
  simp [VMEnv.execute, VMEnv.execStep, hdec]

theorem C4_witness :
    (0xFF ∉ assignedOpcodes) ∧
    VMEnv.execute (VM.new 4) ([0x04] ++ 0xFF :: [0x05]) =
      ({ interop_stack := [VMValue.Int 1], interop_stack_ptr := 1,
         interop_stack_size := 1 },
       some (.interp (.UnimplementedOpcode 0xFF))) :=
  ⟨by decide,
   (C4_unassigned_byte_faults 0xFF (by decide)).2 (VM.new 4)
     { interop_stack := [VMValue.Int 1], interop_stack_ptr := 1,
       interop_stack_size := 1 } [0x04] [0x05] rfl⟩

/-- Sequencing of env-handler calls, as the test driver does: run the next
handler only when no fault occurred yet. -/
def traceStep (r : HandlerResult) (f : VM → HandlerResult) : HandlerResult :=
  match r with
  | (vm, none) => f vm
  | e => e

/-- C1: pushing Int(8) and Int(2) and executing iadd leaves Int(10) on top
of the operand stack; continuing with Int(8) and iadd leaves Int(18) on
top.  In general, iadd pops two Int operands and pushes the Int whose
value is their sum (for i32-range operands whose sum stays in range). -/
theorem C1_iadd_sums (cap : Nat) :
    (∃ vm1 vm2,
      traceStep (traceStep (VMEnv.iconst (VM.new cap) 8)
          (fun vm => VMEnv.iconst vm 2)) VMEnv.iadd = (vm1, none) ∧
      vm1.top = some (.Int 10) ∧
      traceStep (traceStep (vm1, none) (fun vm => VMEnv.iconst vm 8)) VMEnv.iadd
        = (vm2, none) ∧
      vm2.top = some (.Int 18)) ∧
    (∀ (vm vm1 vm2 : VM) (a b : ℤ),
      StackOk vm →
      VM.pop vm = .ok (.Int a, vm1) →
      VM.pop vm1 = .ok (.Int b, vm2) →
      -2 ^ 31 ≤ a → a < 2 ^ 31 → -2 ^ 31 ≤ b → b < 2 ^ 31 →
      -2 ^ 31 ≤ a + b → a + b < 2 ^ 31 →
      ∃ vm', VMEnv.iadd vm = (vm', none) ∧ vm'.top = some (.Int (a + b))) := by
  constructor
  · refine ⟨⟨[.Int 10, .Int 2], 1, 2⟩, ⟨[.Int 18, .Int 8], 1, 2⟩, ?_, ?_, ?_, ?_⟩ <;> rfl
  · intro vm vm1 vm2 a b hok hpa hpb ha1 ha2 hb1 hb2 hs1 hs2
    obtain ⟨stack, p, size⟩ := vm
    obtain ⟨hle, hsz⟩ := hok
    dsimp only at hle hsz
    unfold VM.pop at hpa
    dsimp only at hpa
    by_cases hz : p = 0
    · rw [if_pos hz] at hpa; cases hpa
    rw [if_neg hz] at hpa
    cases hga : stack[p - 1]? with
    | none => rw [hga] at hpa; cases hpa
    | some w =>
      rw [hga] at hpa
      injection hpa with h
      injection h with h1 h2
      subst h1
      subst h2
      unfold VM.pop at hpb
      dsimp only at hpb
      by_cases hz2 : p - 1 = 0
      · rw [if_pos hz2] at hpb; cases hpb
      rw [if_neg hz2] at hpb
      cases hgb : stack[p - 1 - 1]? with
      | none => rw [hgb] at hpb; cases hpb
      | some w2 =>
        rw [hgb] at hpb
        injection hpb with h
        injection h with h3 h4
        subst h3
        subst h4
        have hlen1 : p - 1 < stack.length := by
          by_contra hc
          push_neg at hc
          rw [List.getElem?_eq_none hc] at hga
          cases hga
        have hpop1 : VM.pop ⟨stack, p, size⟩ = .ok (.Int a, ⟨stack, p - 1, size⟩) := by
          unfold VM.pop
          dsimp only
          rw [if_neg hz, hga]
        have hpop2 : VM.pop ⟨stack, p - 1, size⟩ =
            .ok (.Int b, ⟨stack, p - 1 - 1, size⟩) := by
          unfold VM.pop
          dsimp only
          rw [if_neg hz2, hgb]
        have hpush : VM.push ⟨stack, p - 1 - 1, size⟩ (.Int (i32wrap (a + b))) =
            .ok ⟨stack.set (p - 1 - 1) (.Int (i32wrap (a + b))), p - 1 - 1 + 1, size⟩ := by
          unfold VM.push
          dsimp only
          rw [if_neg (by omega), if_pos (by omega), if_pos (by omega)]
        refine ⟨⟨stack.set (p - 1 - 1) (.Int (i32wrap (a + b))), p - 1 - 1 + 1, size⟩, ?_, ?_⟩
        · simp only [VMEnv.iadd, hpop1, VMValue.int, hpop2, hpush]
        · unfold VM.top
          dsimp only
          rw [if_neg (by omega)]
          have : p - 1 - 1 + 1 - 1 = p - 1 - 1 := by omega
          rw [this, List.getElem?_set_eq_of_lt _ (by omega),
            i32wrap_eq_of_range (a + b) hs1 hs2]

/-- A VM holding Int(8) under Int(2), about to execute iadd. -/
def vmTwoInts : VM :=
  { interop_stack := [VMValue.Int 8, VMValue.Int 2], interop_stack_ptr := 2,
    interop_stack_size := 2 }

theorem C1_witness :
    ∃ vm', VMEnv.iadd vmTwoInts = (vm', none) ∧ vm'.top = some (.Int 10) := by
  have h := (C1_iadd_sums 64).2 vmTwoInts ⟨[VMValue.Int 8, VMValue.Int 2], 1, 2⟩
    ⟨[VMValue.Int 8, VMValue.Int 2], 0, 2⟩ 2 8 (by constructor <;> decide)
    (by decide) (by decide) (by decide) (by decide) (by decide) (by decide)
    (by decide) (by decide)
  simpa using h

/-- C3 (documenting the code bug): the flag-word decoder itself maps bit
0x0020 to Synchronized in method context and Super in class context, but
`MethodInfo::from_reader` passes `is_method = false`, so a method-table
entry whose flag word is 0x0020 decodes to Super, not Synchronized. -/
theorem C3_method_entry_flag_0x20 :
    accessFlagsOf 0x20 true = [AccessFlags.Synchronized] ∧
    accessFlagsOf 0x20 false = [AccessFlags.Super] ∧
    MethodInfo.from_reader [0x00, 0x20, 0x00, 0x01, 0x00, 0x02, 0x00, 0x00] =
      .ok ({ access_flags := [AccessFlags.Super], name_index := 1, description_index := 2, attributes := { attributes_count := 0, attributes := [] } }, []) := by
  refine ⟨?_, ?_, ?_⟩ <;> decide

/-- C6: a constant-pool lookup yields no entry exactly when the index is 0
or past the end of the pool, and resolving such an index (here: the
this-class lookup of `get_class_name`) is the fatal `ConstantPoolMissing`
fault carrying that index. -/
theorem C6_missing_constant (r : ClassReader) (k : Nat) :
    (r.get_constant_value k = none ↔
      k = 0 ∨ r.header.constant_pool.constant_pool.length < k) ∧
    (r.header.this_class = k → r.get_constant_value k = none →
      r.get_class_name = .error (.ConstantPoolMissing k)) := by
  constructor
  · unfold ClassReader.get_constant_value
    by_cases hk : k = 0
    · simp [hk]
    · rw [if_neg hk, List.getElem?_eq_none_iff]
      constructor
      · intro h; right; omega
      · intro h
        rcases h with h | h
        · exact absurd h hk
        · omega
  · intro h1 h2
    simp [ClassReader.get_class_name, h1, h2]

/-- A minimal class-file header with an empty constant pool and
`this_class = 0`. -/
def emptyHeader : ClassFileHeader :=
  { magic := 0xCAFEBABE, version_minor := 0, version_major := 52,
    constant_pool := { constant_pool_count := 1, constant_pool := [] },
    access_flags := [], this_class := 0, super_class := 0,
    interfaces := { interfaces_count := 0, interfaces := [] },
    fields := { fields_count := 0, fields := [] },
    methods := { methods_count := 0, methods := [] },
    attributes := { attributes_count := 0, attributes := [] } }

theorem C6_witness :
    ClassReader.get_constant_value { header := emptyHeader } 0 = none ∧
    ClassReader.get_class_name { header := emptyHeader } =
      .error (.ConstantPoolMissing 0) := by
  have h := C6_missing_constant { header := emptyHeader } 0
  have hnone : ClassReader.get_constant_value { header := emptyHeader } 0 = none :=
    h.1.mpr (Or.inl rfl)
  exact ⟨hnone, h.2 rfl hnone⟩

/-- A header whose pool holds a single non-Utf8 entry (an Integer) and
whose single method's name index points at it. -/
def intPoolHeader : ClassFileHeader :=
  { emptyHeader with
    constant_pool := { constant_pool_count := 2, constant_pool := [.Integer 7] },
    methods := { methods_count := 1, methods := [{ access_flags := [], name_index := 1, description_index := 1, attributes := { attributes_count := 0, attributes := [] } }] } }

/-- C7 counterexample: the pool entry at index 1 exists and is an Integer
(not Utf8); resolving it as Utf8 yields no value, and the consuming caller
(`get_methods`) fails with `ConstantPoolMissing`, not with the
`ConstantPoolTypeMismatch` error kind the claim asserts. -/
theorem C7_counterexample :
    ClassReader.get_constant_value { header := intPoolHeader } 1 = some (.Integer 7) ∧
    ClassReader.get_constant_utf8 { header := intPoolHeader } 1 = none ∧
    ClassReader.get_methods { header := intPoolHeader } =
      .error (.ConstantPoolMissing 1) := by
  refine ⟨?_, ?_, ?_⟩ <;> rfl

/-- C7 (amended): resolving a pool index as a Utf8 string succeeds exactly
when the entry at that index is a Utf8 entry; for every index whose entry
exists but has any other entry kind, resolution yields no value — never a
silent default string value. -/
theorem C7_utf8_resolution (r : ClassReader) (idx : Nat) :
    ((r.get_constant_utf8 idx).isSome ↔
      ∃ len bytes s, r.get_constant_value idx = some (.Utf8 len bytes s)) ∧
    (∀ t : ConstantPoolTag, r.get_constant_value idx = some t →
      (∀ len bytes s, t ≠ .Utf8 len bytes s) →
      r.get_constant_utf8 idx = none) := by
  constructor
  · cases hv : r.get_constant_value idx with
    | none => simp [ClassReader.get_constant_utf8, hv]
    | some t => cases t <;> simp [ClassReader.get_constant_utf8, hv]
  · intro t hv hne
    unfold ClassReader.get_constant_utf8
    rw [hv]
    cases t
    case Utf8 len bytes s => exact absurd rfl (hne len bytes s)
    all_goals rfl

theorem C7_witness :
    ClassReader.get_constant_utf8 { header := intPoolHeader } 1 = none :=
  (C7_utf8_resolution { header := intPoolHeader } 1).2 (.Integer 7) rfl
    (fun len bytes s h => by cases h)

/-- Shape invariant of decoded constant pools: a concatenation of decode
chunks, so every Long/Double slot is immediately followed by its Dummy
placeholder slot. -/
inductive Chunked : List ConstantPoolTag → Prop where
  | nil : Chunked []
  | single (t : ConstantPoolTag) (rest : List ConstantPoolTag) :
      (∀ hi lo, t ≠ .Long hi lo) → (∀ hi lo, t ≠ .Double hi lo) →
      Chunked rest → Chunked (t :: rest)
  | long (hi lo : Nat) (rest : List ConstantPoolTag) :
      Chunked rest → Chunked (.Long hi lo :: .Dummy :: rest)
  | dbl (hi lo : Nat) (rest : List ConstantPoolTag) :
      Chunked rest → Chunked (.Double hi lo :: .Dummy :: rest)

theorem Chunked.append {xs ys : List ConstantPoolTag}
    (hx : Chunked xs) (hy : Chunked ys) : Chunked (xs ++ ys) := by
  induction hx with
  | nil => simpa
  | single t rest h1 h2 _ ih => exact Chunked.single t _ h1 h2 ih
  | long hi lo rest _ ih => exact Chunked.long hi lo _ ih
  | dbl hi lo rest _ ih => exact Chunked.dbl hi lo _ ih

/-- Each chunk `ConstantPoolTag::from_reader` produces is either a single
non-Long/Double slot or a Long/Double slot followed by a Dummy slot. -/
theorem from_reader_chunked {bs : List Nat} {tags : List ConstantPoolTag}
    {rest : List Nat} (h : ConstantPoolTag.from_reader bs = .ok (tags, rest)) :
    Chunked tags := by
  unfold ConstantPoolTag.from_reader at h
  split at h
  · cases h
  rename_i byte bs1 heq
  by_cases hb1 : byte = 1
  · rw [if_pos hb1] at h
    split at h
    · cases h
    · split at h
      · cases h
      · cases h
        exact Chunked.single _ [] (fun hi lo hc => by cases hc) (fun hi lo hc => by cases hc) Chunked.nil
  rw [if_neg hb1] at h
  by_cases hb3 : byte = 3
  · rw [if_pos hb3] at h
    split at h
    · cases h
    · cases h
      exact Chunked.single _ [] (fun hi lo hc => by cases hc) (fun hi lo hc => by cases hc) Chunked.nil
  rw [if_neg hb3] at h
  by_cases hb4 : byte = 4
  · rw [if_pos hb4] at h
    split at h
    · cases h
    · cases h
      exact Chunked.single _ [] (fun hi lo hc => by cases hc) (fun hi lo hc => by cases hc) Chunked.nil
  rw [if_neg hb4] at h
  by_cases hb5 : byte = 5
  · rw [if_pos hb5] at h
    split at h
    · cases h
    · split at h
      · cases h
      · cases h
        exact Chunked.long _ _ [] Chunked.nil
  rw [if_neg hb5] at h
  by_cases hb6 : byte = 6
  · rw [if_pos hb6] at h
    split at h
    · cases h
    · split at h
      · cases h
      · cases h
        exact Chunked.dbl _ _ [] Chunked.nil
  rw [if_neg hb6] at h
  by_cases hb7 : byte = 7
  · rw [if_pos hb7] at h
    split at h
    · cases h
    · cases h
      exact Chunked.single _ [] (fun hi lo hc => by cases hc) (fun hi lo hc => by cases hc) Chunked.nil
  rw [if_neg hb7] at h
  by_cases hb8 : byte = 8
  · rw [if_pos hb8] at h
    split at h
    · cases h
    · cases h
      exact Chunked.single _ [] (fun hi lo hc => by cases hc) (fun hi lo hc => by cases hc) Chunked.nil
  rw [if_neg hb8] at h
  by_cases hb9 : byte = 9
  · rw [if_pos hb9] at h
    split at h
    · cases h
    · split at h
      · cases h
      · cases h
        exact Chunked.single _ [] (fun hi lo hc => by cases hc) (fun hi lo hc => by cases hc) Chunked.nil
  rw [if_neg hb9] at h
  by_cases hb10 : byte = 10
  · rw [if_pos hb10] at h
    split at h
    · cases h
    · split at h
      · cases h
      · cases h
        exact Chunked.single _ [] (fun hi lo hc => by cases hc) (fun hi lo hc => by cases hc) Chunked.nil
  rw [if_neg hb10] at h
  by_cases hb11 : byte = 11
  · rw [if_pos hb11] at h
    split at h
    · cases h
    · split at h
      · cases h
      · cases h
        exact Chunked.single _ [] (fun hi lo hc => by cases hc) (fun hi lo hc => by cases hc) Chunked.nil
  rw [if_neg hb11] at h
  by_cases hb12 : byte = 12
  · rw [if_pos hb12] at h
    split at h
    · cases h
    · split at h
      · cases h
      · cases h
        exact Chunked.single _ [] (fun hi lo hc => by cases hc) (fun hi lo hc => by cases hc) Chunked.nil
  rw [if_neg hb12] at h
  by_cases hb15 : byte = 15
  · rw [if_pos hb15] at h
    split at h
    · cases h
    · split at h
      · cases h
      · cases h
        exact Chunked.single _ [] (fun hi lo hc => by cases hc) (fun hi lo hc => by cases hc) Chunked.nil
  rw [if_neg hb15] at h
  by_cases hb16 : byte = 16
  · rw [if_pos hb16] at h
    split at h
    · cases h
    · cases h
      exact Chunked.single _ [] (fun hi lo hc => by cases hc) (fun hi lo hc => by cases hc) Chunked.nil
  rw [if_neg hb16] at h
  by_cases hb18 : byte = 18
  · rw [if_pos hb18] at h
    split at h
    · cases h
    · split at h
      · cases h
      · cases h
        exact Chunked.single _ [] (fun hi lo hc => by cases hc) (fun hi lo hc => by cases hc) Chunked.nil
  rw [if_neg hb18] at h
  cases h

/-- The pool-decoding loop only ever appends whole chunks, so the decoded
pool is chunked. -/
theorem poolLoop_chunked : ∀ (fuel target : Nat) (acc : List ConstantPoolTag)
    (bs : List Nat) (pool : List ConstantPoolTag) (rest : List Nat),
    poolLoop fuel target acc bs = .ok (pool, rest) → Chunked acc → Chunked pool := by
  intro fuel
  induction fuel with
  | zero =>
    intro target acc bs pool rest h _
    cases h
  | succ n ih =>
    intro target acc bs pool rest h hacc
    unfold poolLoop at h
    split at h
    · cases h
      exact hacc
    · cases hfr : ConstantPoolTag.from_reader bs with
      | error e => rw [hfr] at h; cases h
      | ok pr =>
        obtain ⟨tags, rest'⟩ := pr
        rw [hfr] at h
        exact ih target (acc ++ tags) rest' pool rest h
          (Chunked.append hacc (from_reader_chunked hfr))

/-- In a chunked pool, whatever Long/Double slot occurs at any position is
immediately followed by a Dummy slot. -/
theorem Chunked.dummy_after {l : List ConstantPoolTag} (h : Chunked l) :
    ∀ (pre suf : List ConstantPoolTag) (entry : ConstantPoolTag) (hi lo : Nat),
      l = pre ++ entry :: suf →
      (entry = .Long hi lo ∨ entry = .Double hi lo) →
      ∃ suf', suf = .Dummy :: suf' := by
  induction h with
  | nil =>
    intro pre suf entry hi lo heq _
    exact absurd heq (by simp)
  | single t rest h1 h2 hc ih =>
    intro pre suf entry hi lo heq he
    cases pre with
    | nil =>
      rw [List.nil_append] at heq
      injection heq with h3 h4
      subst h3
      rcases he with he | he
      · exact absurd he (h1 hi lo)
      · exact absurd he (h2 hi lo)
    | cons p ps =>
      rw [List.cons_append] at heq
      injection heq with h3 h4
      exact ih ps suf entry hi lo h4 he
  | long hi' lo' rest hc ih =>
    intro pre suf entry hi lo heq he
    cases pre with
    | nil =>
      rw [List.nil_append] at heq
      injection heq with h3 h4
      exact ⟨rest, h4.symm⟩
    | cons p ps =>
      rw [List.cons_append] at heq
      injection heq with h3 h4
      cases ps with
      | nil =>
        rw [List.nil_append] at h4
        injection h4 with h5 h6
        rcases he with he | he <;> rw [← h5] at he <;> cases he
      | cons q qs =>
        rw [List.cons_append] at h4
        injection h4 with h5 h6
        exact ih qs suf entry hi lo h6 he
  | dbl hi' lo' rest hc ih =>
    intro pre suf entry hi lo heq he
    cases pre with
    | nil =>
      rw [List.nil_append] at heq
      injection heq with h3 h4
      exact ⟨rest, h4.symm⟩
    | cons p ps =>
      rw [List.cons_append] at heq
      injection heq with h3 h4
      cases ps with
      | nil =>
        rw [List.nil_append] at h4
        injection h4 with h5 h6
        rcases he with he | he <;> rw [← h5] at he <;> cases he
      | cons q qs =>
        rw [List.cons_append] at h4
        injection h4 with h5 h6
        exact ih qs suf entry hi lo h6 he

/-- C2: in any decoded constant pool, a Long or Double entry at logical
position k occupies two slots: index k resolves to the real entry, index
k+1 to the inert Dummy placeholder, and index k+2 to whatever entry
follows, so all subsequent index resolution stays correctly offset. -/
theorem C2_long_double_two_slots (bs rem : List Nat) (cp : ClassFileConstantPool)
    (r : ClassReader) (pre suf : List ConstantPoolTag) (entry : ConstantPoolTag)
    (hi lo k : Nat)
    (hdec : ClassFileConstantPool.from_reader bs = .ok (cp, rem))
    (hr : r.header.constant_pool = cp)
    (hentry : entry = .Long hi lo ∨ entry = .Double hi lo)
    (hsplit : cp.constant_pool = pre ++ entry :: suf)
    (hk : k = pre.length + 1) :
    ∃ suf', suf = .Dummy :: suf' ∧
      r.get_constant_value k = some entry ∧
      r.get_constant_value (k + 1) = some .Dummy ∧
      r.get_constant_value (k + 2) = suf'.head? := by
  subst hk
  have hch : Chunked cp.constant_pool := by
    unfold ClassFileConstantPool.from_reader at hdec
    split at hdec
    · cases hdec
    split at hdec
    · cases hdec
    rename_i pool rest2 hpl
    cases hdec
    exact poolLoop_chunked _ _ _ _ _ _ hpl Chunked.nil
  obtain ⟨suf', hsuf⟩ := hch.dummy_after pre suf entry hi lo hsplit hentry
  subst hsuf
  refine ⟨suf', rfl, ?_, ?_, ?_⟩
  · unfold ClassReader.get_constant_value
    rw [if_neg (by omega), hr, hsplit]
    have hidx : pre.length + 1 - 1 = pre.length := by omega
    rw [hidx, List.getElem?_append_right (le_refl _)]
    simp
  · unfold ClassReader.get_constant_value
    rw [if_neg (by omega), hr, hsplit]
    have hidx : pre.length + 1 + 1 - 1 = pre.length + 1 := by omega
    rw [hidx, List.getElem?_append_right (by omega)]
    have hidx2 : pre.length + 1 - pre.length = 1 := by omega
    rw [hidx2]
    simp
  · unfold ClassReader.get_constant_value
    rw [if_neg (by omega), hr, hsplit]
    have hidx : pre.length + 1 + 2 - 1 = pre.length + 2 := by omega
    rw [hidx, List.getElem?_append_right (by omega)]
    have hidx2 : pre.length + 2 - pre.length = 2 := by omega
    rw [hidx2]
    simp [List.head?_eq_getElem?]

/-- A header whose pool was decoded from a stream declaring four logical
entries: a Long (two slots) followed by an Integer. -/
def longPoolHeader : ClassFileHeader :=
  { emptyHeader with
    constant_pool := { constant_pool_count := 4, constant_pool := [.Long 0 1, .Dummy, .Integer 7] } }

theorem C2_witness :
    ∃ suf', ([ConstantPoolTag.Dummy, ConstantPoolTag.Integer 7] : List ConstantPoolTag) = .Dummy :: suf' ∧
      ClassReader.get_constant_value { header := longPoolHeader } 1 = some (.Long 0 1) ∧
      ClassReader.get_constant_value { header := longPoolHeader } 2 = some .Dummy ∧
      ClassReader.get_constant_value { header := longPoolHeader } 3 = suf'.head? :=
  C2_long_double_two_slots
    ([0, 4] ++ [5, 0, 0, 0, 0, 0, 0, 0, 1] ++ [3, 0, 0, 0, 7]) []
    { constant_pool_count := 4, constant_pool := [.Long 0 1, .Dummy, .Integer 7] }
    { header := longPoolHeader } [] [.Dummy, .Integer 7] (.Long 0 1) 0 1 1
    (by rfl) rfl (Or.inl rfl) rfl rfl

/-- C8 counterexample: the input `[0, 0, 0, 0]` starts with a 4-byte value
(0) that is not the magic sentinel 0xCAFEBABE, yet loading fails with the
I/O error `ClassFileReadFailure` (the header parse runs to completion
before the magic check and dies earlier on the truncated input), not with
`MagicMismatch`. -/
theorem C8_counterexample :
    read_u32 [0, 0, 0, 0] = .ok (0, []) ∧
    Loader.load_from_reader [0, 0, 0, 0] = .error .ClassFileReadFailure :=
  ⟨rfl, rfl⟩

/-- C8 (amended): for every input whose header sections all parse
(`ClassFileHeader::from_reader` reads every section), a first 4-byte value
different from 0xCAFEBABE makes loading fail with `MagicMismatch` carrying
the value actually read, and no Class value is returned; inputs that
additionally fail structural parsing report that structural error
instead. -/
theorem C8_magic_mismatch (bs bs1 bs2 bs3 bs4 bs5 bs6 bs7 bs8 bs9 bs10 bs11 : List Nat)
    (magic minor major tc sc : Nat) (cp : ClassFileConstantPool)
    (af : List AccessFlags) (ifs : ClassFileInterfaces) (fs : ClassFileFields)
    (ms : ClassFileMethods) (ats : ClassFileAttributes)
    (h0 : read_u32 bs = .ok (magic, bs1))
    (hm : magic ≠ 0xCAFEBABE)
    (h1 : read_u16 bs1 = .ok (minor, bs2))
    (h2 : read_u16 bs2 = .ok (major, bs3))
    (h3 : ClassFileConstantPool.from_reader bs3 = .ok (cp, bs4))
    (h4 : AccessFlags.from_reader bs4 false = .ok (af, bs5))
    (h5 : read_u16 bs5 = .ok (tc, bs6))
    (h6 : read_u16 bs6 = .ok (sc, bs7))
    (h7 : ClassFileInterfaces.from_reader bs7 = .ok (ifs, bs8))
    (h8 : ClassFileFields.from_reader bs8 = .ok (fs, bs9))
    (h9 : ClassFileMethods.from_reader bs9 = .ok (ms, bs10))
    (h10 : ClassFileAttributes.from_reader bs10 = .ok (ats, bs11)) :
    ClassFileHeader.from_reader bs = .error (.MagicMismatch magic) ∧
    Loader.load_from_reader bs = .error (.MagicMismatch magic) := by
  have hh : ClassFileHeader.from_reader bs = .error (.MagicMismatch magic) := by
    unfold ClassFileHeader.from_reader
    simp only [h0, h1, h2, h3, h4, h5, h6, h7, h8, h9, h10]
    simp [hm]
  refine ⟨hh, ?_⟩
  unfold Loader.load_from_reader
  rw [hh]

/-- A complete 24-byte header whose sections all parse but whose magic is
0 instead of 0xCAFEBABE: magic, minor, major, pool count 1 (empty pool),
class access flags, this/super class, and empty interface, field, method
and attribute tables. -/
def badMagicBytes : List Nat :=
  [0, 0, 0, 0, 0, 0, 0, 52, 0, 1, 0, 0, 0, 0, 0, 0, 0, 0, 0, 0, 0, 0, 0, 0]

theorem C8_witness :
    Loader.load_from_reader badMagicBytes = .error (.MagicMismatch 0) :=
  (C8_magic_mismatch badMagicBytes (badMagicBytes.drop 4) (badMagicBytes.drop 6)
    (badMagicBytes.drop 8) (badMagicBytes.drop 10) (badMagicBytes.drop 12)
    (badMagicBytes.drop 14) (badMagicBytes.drop 16) (badMagicBytes.drop 18)
    (badMagicBytes.drop 20) (badMagicBytes.drop 22) (badMagicBytes.drop 24)
    0 0 52 0 0 { constant_pool_count := 1, constant_pool := [] } []
    { interfaces_count := 0, interfaces := [] } { fields_count := 0, fields := [] }
    { methods_count := 0, methods := [] } { attributes_count := 0, attributes := [] }
    (by rfl) (by decide) (by rfl) (by rfl) (by rfl) (by rfl) (by rfl) (by rfl)
    (by rfl) (by rfl) (by rfl) (by rfl)).2

end RustyJvm
